import Mathlib

/-!
Verification of `analyze_schema.py` (SQLite-Editor repository).

The script's only function, `analyze_database_schema`, opens a SQLite
database, reads the table catalog (`sqlite_master`), runs
`PRAGMA foreign_key_list({table})` for each table, and returns either a
success dictionary `{foreign_keys, table_count, found_fk_count}` or an
error dictionary `{error: str(e)}` when any step raises.

The sqlite3 library is modelled as a world (`SQLite`) answering the three
operations the script performs, each of which may raise (modelled as
`Except String`).  The function itself is translated statement by
statement into `analyze_database_schema` below; besides the returned
Python value it records the final state of the connection it opened and
the trace of operations it attempted, so that resource and no-retry
properties can be stated.
-/

/-- A Python value, as needed for the dictionaries this script builds:
`None`, strings, ints, lists and (insertion-ordered) dicts. -/
inductive PyVal where
  | none : PyVal
  | str : String → PyVal
  | int : Int → PyVal
  | list : List PyVal → PyVal
  | dict : List (String × PyVal) → PyVal

/-- The keys of a Python dict value, in insertion order. -/
def pyKeys : PyVal → List String
  | .dict ps => ps.map Prod.fst
  | _ => []

/-- Lookup of a key in a Python dict value (first binding wins). -/
def pyLookup (k : String) : PyVal → Option PyVal
  | .dict ps => (ps.find? fun p => p.1 = k).map Prod.snd
  | _ => Option.none

/-- One row of `PRAGMA foreign_key_list`, a tuple
`(id, seq, table, from, to, on_update, on_delete, match)`; the script
reads indices 2 (referenced table), 3 (source column) and 4 (referenced
column, which sqlite reports as NULL for an implicit primary-key
reference). -/
structure FKRow where
  fkId : Nat
  fkSeq : Nat
  fkTable : String
  fkFrom : String
  fkTo : Option String
  fkOnUpdate : String
  fkOnDelete : String
  fkMatch : String
deriving DecidableEq

/-- The sqlite3 interface as the script uses it: `sqlite3.connect`,
the `sqlite_master` query (execute + fetchall), and the per-table
`PRAGMA foreign_key_list` query (execute + fetchall).  Each operation
either returns its rows or raises an exception carrying `str(e)`. -/
structure SQLite where
  connectResult : Except String Unit
  masterTables : Except String (List (String × String))
  foreignKeyList : String → Except String (List FKRow)

/-- State of the connection opened by the function, at the moment it
returns. -/
inductive ConnState where
  | neverOpened : ConnState
  | stillOpen : ConnState
  | wasClosed : ConnState
deriving DecidableEq

/-- One attempted database operation, for the trace. -/
inductive Event where
  | evConnect : Event
  | evQueryMaster : Event
  | evPragma : String → Event
  | evClose : Event
deriving DecidableEq

/-- The dict appended to `foreign_keys` for one pragma row:
`{'table': table_name, 'from_column': fk[3], 'to_table': fk[2],
'to_column': fk[4]}`. -/
def fkEntry (tableName : String) (fk : FKRow) : PyVal :=
  .dict [("table", .str tableName),
         ("from_column", .str fk.fkFrom),
         ("to_table", .str fk.fkTable),
         ("to_column", match fk.fkTo with
                       | some s => .str s
                       | .none => .none)]

/-- The `for table_name, table_sql in tables:` loop: runs the pragma for
each table in order, appending one entry per row (the `if fk_info:` guard
of the source skips the append for an empty row list); the first raised
exception aborts the loop.  Returns the loop's outcome together with the
pragma events it attempted. -/
def fkLoop (db : SQLite) :
    List (String × String) → List PyVal → Except String (List PyVal) × List Event
  | [], acc => (.ok acc, [])
  | (tn, _) :: rest, acc =>
    match db.foreignKeyList tn with
    | .error e => (.error e, [.evPragma tn])
    | .ok fkInfo =>
      let r := fkLoop db rest
        (if fkInfo.isEmpty then acc else acc ++ fkInfo.map (fkEntry tn))
      (r.1, .evPragma tn :: r.2)

/-- A hex digit, lower case, as Python's `json` module emits them. -/
def hexDigit (n : Nat) : Char :=
  if n < 10 then Char.ofNat (48 + n) else Char.ofNat (87 + n)

/-- Four-digit lower-case hex, for `\uXXXX` escapes. -/
def toHex4 (n : Nat) : String :=
  String.mk [hexDigit (n / 4096 % 16), hexDigit (n / 256 % 16),
             hexDigit (n / 16 % 16), hexDigit (n % 16)]

/-- JSON escaping of one character as `json.dumps` does with its default
`ensure_ascii=True`: named escapes, `\uXXXX` for other characters outside
`0x20`–`0x7e`, and surrogate pairs beyond the basic plane. -/
def escapeChar (c : Char) : String :=
  if c = '"' then "\\\""
  else if c = '\\' then "\\\\"
  else if c = '\n' then "\\n"
  else if c = '\t' then "\\t"
  else if c = '\r' then "\\r"
  else if c = '\x08' then "\\b"
  else if c = '\x0c' then "\\f"
  else if c.toNat < 0x20 || c.toNat > 0x7e then
    if c.toNat < 0x10000 then "\\u" ++ toHex4 c.toNat
    else
      "\\u" ++ toHex4 (0xd800 + (c.toNat - 0x10000) / 0x400) ++
      "\\u" ++ toHex4 (0xdc00 + (c.toNat - 0x10000) % 0x400)
  else String.mk [c]

/-- A JSON string literal for `s`, escaped as `json.dumps` escapes it. -/
def jsonStr (s : String) : String :=
  "\"" ++ String.join (s.data.map escapeChar) ++ "\""

/-- A run of `n` spaces. -/
def sp (n : Nat) : String := String.mk (List.replicate n ' ')

mutual

/-- The text of `json.dumps(v, indent=2)` at nesting level `lvl`, for the value
shapes this script produces: each container item on its own line,
indented two spaces per level, `", "`-free item separator (a comma then a
newline) and `": "` key separator. -/
def pyJson : Nat → PyVal → String
  | _, .none => "null"
  | _, .str s => jsonStr s
  | _, .int n => toString n
  | _, .list [] => "[]"
  | lvl, .list (x :: xs) =>
      "[\n" ++ sp (2 * (lvl + 1)) ++ pyJson (lvl + 1) x ++
      pyJsonItems (lvl + 1) xs ++ "\n" ++ sp (2 * lvl) ++ "]"
  | _, .dict [] => "\x7b\x7d"
  | lvl, .dict ((k, v) :: ps) =>
      "\x7b\n" ++ sp (2 * (lvl + 1)) ++ jsonStr k ++ ": " ++ pyJson (lvl + 1) v ++
      pyJsonPairs (lvl + 1) ps ++ "\n" ++ sp (2 * lvl) ++ "\x7d"

/-- Remaining items of a JSON array, each preceded by `",\n"` and its
indentation. -/
def pyJsonItems : Nat → List PyVal → String
  | _, [] => ""
  | lvl, x :: xs => ",\n" ++ sp (2 * lvl) ++ pyJson lvl x ++ pyJsonItems lvl xs

/-- Remaining pairs of a JSON object, each preceded by `",\n"` and its
indentation. -/
def pyJsonPairs : Nat → List (String × PyVal) → String
  | _, [] => ""
  | lvl, (k, v) :: ps =>
      ",\n" ++ sp (2 * lvl) ++ jsonStr k ++ ": " ++ pyJson lvl v ++ pyJsonPairs lvl ps

end

/-- Result of one invocation: the returned Python value, the state of the
connection, and the trace of attempted operations. -/
structure Outcome where
  ret : PyVal
  conn : ConnState
  events : List Event

/-- The function `analyze_database_schema(db_path)`, translated statement by
statement.  The whole body sits in a `try`; `except Exception as e`
returns `{'error': str(e)}` without closing the connection.  On success
the connection is closed just before the success dict is returned. -/
def analyze_database_schema (db : SQLite) : Outcome :=
  match db.connectResult with
  | .error e => ⟨.dict [("error", .str e)], .neverOpened, [.evConnect]⟩
  | .ok _ =>
    match db.masterTables with
    | .error e => ⟨.dict [("error", .str e)], .stillOpen, [.evConnect, .evQueryMaster]⟩
    | .ok tables =>
      match fkLoop db tables [] with
      | (.error e, evs) =>
        ⟨.dict [("error", .str e)], .stillOpen, .evConnect :: .evQueryMaster :: evs⟩
      | (.ok fks, evs) =>
        ⟨.dict [("foreign_keys", .list fks),
                ("table_count", .int (tables.length : Int)),
                ("found_fk_count", .int (fks.length : Int))],
         .wasClosed,
         .evConnect :: .evQueryMaster :: (evs ++ [.evClose])⟩

/-- The `__main__` block: `print(json.dumps(result, indent=2))` — the
bytes written to standard output for one run against the world `db`
(the db path is the hardcoded `database.db`; the world stands for the
file found there). -/
def mainOutput (db : SQLite) : String :=
  pyJson 0 (analyze_database_schema db).ret ++ "\n"

/-- One table of an abstract well-formed SQLite database: its name, its
`CREATE TABLE` statement, and its declared foreign keys (the rows
`PRAGMA foreign_key_list` reports for it when asked with a properly
quoted name). -/
structure TableDef where
  name : String
  sql : String
  fks : List FKRow

/-- Whether `s` is a plain SQL identifier (letters, digits, underscores,
not starting with a digit, nonempty).  Such names — and only such names,
in this conservative model — can be interpolated verbatim into the
unquoted `PRAGMA foreign_key_list({table_name})` text the script builds
with an f-string. -/
def plainIdent (s : String) : Bool :=
  !s.isEmpty &&
  (match s.data with
   | c :: _ => c.isAlpha || c = '_'
   | [] => false) &&
  s.data.all fun c => c.isAlphanum || c = '_'

/-- The declared foreign keys of the table named `n`, or `[]` when no
table has that name. -/
def lookupFks (tbls : List TableDef) (n : String) : List FKRow :=
  match tbls.find? fun t => t.name = n with
  | some t => t.fks
  | Option.none => []

/-- The sqlite3 library's behavior over the abstract database `tbls`:
connecting succeeds, the catalog query lists the tables in catalog
order, and `PRAGMA foreign_key_list({n})` parses — and then reports the
table's declared foreign keys — only when the interpolated name is a
plain identifier; a name that breaks the statement text (a closing
parenthesis, a space, a quote, …) makes the execute call raise an
`sqlite3.OperationalError`, since the script neither quotes nor
parameterizes the name. -/
def sqliteWorld (tbls : List TableDef) : SQLite where
  connectResult := .ok ()
  masterTables := .ok (tbls.map fun t => (t.name, t.sql))
  foreignKeyList := fun n =>
    if plainIdent n then .ok (lookupFks tbls n)
    else .error ("unrecognized token or syntax error in \"PRAGMA foreign_key_list(" ++ n ++ ")\"")

/-- A well-formed database: table names are nonempty and pairwise
distinct (SQLite enforces both, whatever characters the names contain). -/
def wfDatabase (tbls : List TableDef) : Prop :=
  (tbls.map TableDef.name).Nodup ∧ ∀ t ∈ tbls, t.name ≠ ""

/-- The table names of the run's catalog query, empty when that query
raised. -/
def catalogNames (db : SQLite) : List String :=
  match db.masterTables with
  | .ok ts => ts.map Prod.fst
  | .error _ => []

/-- A world on which the function hits the error path after opening the
connection: connecting succeeds and the `sqlite_master` query raises. -/
def cexWorld : SQLite where
  connectResult := .ok ()
  masterTables := .error "disk I/O error"
  foreignKeyList := fun _ => .ok []

/-- A path whose directory does not exist: `sqlite3.connect` raises
`OperationalError` with this message. -/
def noFileWorld : SQLite where
  connectResult := .error "unable to open database file"
  masterTables := .ok []
  foreignKeyList := fun _ => .ok []

/-- A path holding a file that is not a SQLite database: connecting
succeeds (sqlite opens lazily) and the first query raises
`DatabaseError`. -/
def textFileWorld : SQLite where
  connectResult := .ok ()
  masterTables := .error "file is not a database"
  foreignKeyList := fun _ => .ok []

/-- An empty database: the catalog query returns no tables. -/
def emptyDbWorld : SQLite := sqliteWorld []

/-- A two-table database where `orders.customer_id` references
`customers(id)` — the spec's worked example. -/
def ordersWorld : SQLite where
  connectResult := .ok ()
  masterTables := .ok
    [("customers", "CREATE TABLE customers (id INTEGER PRIMARY KEY)"),
     ("orders",
      "CREATE TABLE orders (customer_id INTEGER, FOREIGN KEY(customer_id) REFERENCES customers(id))")]
  foreignKeyList := fun n =>
    if n = "orders" then
      .ok [⟨0, 0, "customers", "customer_id", some "id", "NO ACTION", "NO ACTION", "NONE"⟩]
    else .ok []

/-- The pragma rows of `ordersWorld`, per table name. -/
def ordersRows (n : String) : List FKRow :=
  if n = "orders" then
    [⟨0, 0, "customers", "customer_id", some "id", "NO ACTION", "NO ACTION", "NONE"⟩]
  else []

/-- A two-table database with no declared foreign keys. -/
def twoTablesWorld : SQLite where
  connectResult := .ok ()
  masterTables := .ok
    [("alpha", "CREATE TABLE alpha (x INTEGER)"),
     ("beta", "CREATE TABLE beta (y TEXT)")]
  foreignKeyList := fun _ => .ok []

/-- A path naming a nonexistent file inside an existing directory:
`sqlite3.connect` does not raise on such a path — it creates an empty
database file — and the catalog query on the fresh database then
succeeds with no rows. -/
def freshFileWorld : SQLite where
  connectResult := .ok ()
  masterTables := .ok []
  foreignKeyList := fun _ => .ok []

/-- A well-formed one-table database with no declared foreign keys whose
table name cannot be interpolated verbatim into the unquoted
`PRAGMA foreign_key_list({table_name})` text. -/
def badNameDb : List TableDef :=
  [⟨"bad)name", "CREATE TABLE \"bad)name\" (x INTEGER)", []⟩]

/-- When every table's pragma succeeds, the loop returns the
accumulator followed by one entry per row, tables in iteration order and
rows in row order, and attempts exactly one pragma per table. -/
theorem fkLoop_ok (db : SQLite) (rows : String → List FKRow) :
    ∀ (tables : List (String × String)) (acc : List PyVal),
      (∀ p ∈ tables, db.foreignKeyList p.1 = .ok (rows p.1)) →
      fkLoop db tables acc =
        (.ok (acc ++ tables.flatMap fun p => (rows p.1).map (fkEntry p.1)),
         tables.map fun p => Event.evPragma p.1) := by
  intro tables
  induction tables with
  | nil => intro acc _; simp [fkLoop]
  | cons p rest ih =>
    intro acc h
    obtain ⟨tn, sql⟩ := p
    have h1 : db.foreignKeyList tn = .ok (rows tn) := h (tn, sql) (by simp)
    have ih' := ih (if (rows tn).isEmpty then acc else acc ++ (rows tn).map (fkEntry tn))
      (fun q hq => h q (List.mem_cons_of_mem _ hq))
    simp only [fkLoop, h1, ih']
    by_cases he : (rows tn).isEmpty
    · simp_all [List.isEmpty_iff]
    · simp [he, List.append_assoc]

/-- The pragma events of the loop are those of an initial segment of the
table list, one per table, in order. -/
theorem fkLoop_events (db : SQLite) :
    ∀ (tables : List (String × String)) (acc : List PyVal),
      ∃ k, (fkLoop db tables acc).2 = (tables.take k).map fun p => Event.evPragma p.1 := by
  intro tables
  induction tables with
  | nil => intro acc; exact ⟨0, rfl⟩
  | cons p rest ih =>
    intro acc
    obtain ⟨tn, sql⟩ := p
    cases hq : db.foreignKeyList tn with
    | error e => exact ⟨1, by simp [fkLoop, hq]⟩
    | ok fkInfo =>
      obtain ⟨k, hk⟩ :=
        ih (if fkInfo.isEmpty then acc else acc ++ fkInfo.map (fkEntry tn))
      refine ⟨k + 1, ?_⟩
      simp only [fkLoop, hq, List.take_succ_cons, List.map_cons]
      exact congrArg (Event.evPragma tn :: ·) hk

/-- Every value the loop returns was already in the accumulator or is the
entry of a pragma row of one of the listed tables. -/
theorem fkLoop_mem (db : SQLite) :
    ∀ (tables : List (String × String)) (acc fks : List PyVal),
      (fkLoop db tables acc).1 = .ok fks →
      ∀ v ∈ fks, v ∈ acc ∨ ∃ p ∈ tables, ∃ fk, v = fkEntry p.1 fk := by
  intro tables
  induction tables with
  | nil =>
    intro acc fks h v hv
    simp only [fkLoop, Except.ok.injEq] at h
    exact Or.inl (by rw [h]; exact hv)
  | cons p rest ih =>
    intro acc fks h v hv
    obtain ⟨tn, sql⟩ := p
    cases hq : db.foreignKeyList tn with
    | error e => simp [fkLoop, hq] at h
    | ok fkInfo =>
      simp only [fkLoop, hq] at h
      rcases ih _ fks h v hv with hacc | ⟨q, hq', fk, hfk⟩
      · by_cases he : fkInfo.isEmpty
        · rw [if_pos he] at hacc
          exact Or.inl hacc
        · rw [if_neg he] at hacc
          rcases List.mem_append.mp hacc with h1 | h2
          · exact Or.inl h1
          · obtain ⟨fk, hfk1, hfk2⟩ := List.mem_map.mp h2
            exact Or.inr ⟨(tn, sql), by simp, fk, hfk2.symm⟩
      · exact Or.inr ⟨q, List.mem_cons_of_mem _ hq', fk, hfk⟩

/-- Step lemma: `sqlite3.connect` raises. -/
theorem analyze_connect_error (db : SQLite) (e : String)
    (h : db.connectResult = .error e) :
    analyze_database_schema db =
      ⟨.dict [("error", .str e)], .neverOpened, [.evConnect]⟩ := by
  unfold analyze_database_schema
  rw [h]

/-- Step lemma: the `sqlite_master` query raises. -/
theorem analyze_master_error (db : SQLite) (e : String)
    (h1 : db.connectResult = .ok ())
    (h2 : db.masterTables = .error e) :
    analyze_database_schema db =
      ⟨.dict [("error", .str e)], .stillOpen, [.evConnect, .evQueryMaster]⟩ := by
  unfold analyze_database_schema
  rw [h1, h2]

/-- Step lemma: some pragma in the loop raises. -/
theorem analyze_loop_error (db : SQLite) (ts : List (String × String))
    (e : String) (evs : List Event)
    (h1 : db.connectResult = .ok ())
    (h2 : db.masterTables = .ok ts)
    (h3 : fkLoop db ts [] = (.error e, evs)) :
    analyze_database_schema db =
      ⟨.dict [("error", .str e)], .stillOpen,
       .evConnect :: .evQueryMaster :: evs⟩ := by
  unfold analyze_database_schema
  simp only [h1, h2, h3]

/-- Step lemma: every operation succeeds. -/
theorem analyze_loop_ok (db : SQLite) (ts : List (String × String))
    (fks : List PyVal) (evs : List Event)
    (h1 : db.connectResult = .ok ())
    (h2 : db.masterTables = .ok ts)
    (h3 : fkLoop db ts [] = (.ok fks, evs)) :
    analyze_database_schema db =
      ⟨.dict [("foreign_keys", .list fks),
              ("table_count", .int (ts.length : Int)),
              ("found_fk_count", .int (fks.length : Int))],
       .wasClosed,
       .evConnect :: .evQueryMaster :: (evs ++ [.evClose])⟩ := by
  unfold analyze_database_schema
  simp only [h1, h2, h3]

/-- C4: for every input path, `analyze_database_schema` returns exactly
one of two shapes — the success dict with keys `foreign_keys`,
`table_count`, `found_fk_count` (in that order), or the failure dict
with the single key `error`; no returned value mixes keys of both
shapes. -/
theorem analyze_exactly_two_shapes (db : SQLite) :
    pyKeys (analyze_database_schema db).ret =
      ["foreign_keys", "table_count", "found_fk_count"] ∨
    pyKeys (analyze_database_schema db).ret = ["error"] := by
  unfold analyze_database_schema
  split
  · right; rfl
  · split
    · right; rfl
    · split
      · right; rfl
      · left; rfl

/-- C2, amended: the connection is closed before returning exactly when
the run succeeds; on every error return the connection is never closed
(it was never opened when connecting itself raised, and is left open when
a later query raised, since the `except` branch returns without calling
`close`). -/
theorem analyze_closes_iff_success (db : SQLite) :
    (analyze_database_schema db).conn = ConnState.wasClosed ↔
      pyKeys (analyze_database_schema db).ret =
        ["foreign_keys", "table_count", "found_fk_count"] := by
  unfold analyze_database_schema
  split
  · simp [pyKeys]
  · split
    · simp [pyKeys]
    · split
      · simp [pyKeys]
      · simp [pyKeys]

/-- C2, counterexample: an invocation that returns (with the error dict)
while the connection it opened is still open — the claim that the
connection is closed before returning on both paths is false. -/
theorem analyze_returns_with_conn_open :
    (analyze_database_schema cexWorld).conn = ConnState.stillOpen ∧
    (analyze_database_schema cexWorld).conn ≠ ConnState.wasClosed ∧
    pyKeys (analyze_database_schema cexWorld).ret = ["error"] :=
  ⟨rfl, by decide, rfl⟩

/-- C1: whenever opening the database raises (nonexistent directory,
unreadable file), or the catalog query raises (file is not a database),
with a non-empty message `m`, the result is `{error: m}`: the `error`
value is a non-empty string and the dict has no `table_count` and no
`foreign_keys` key. -/
theorem analyze_error_shape_on_bad_file (db : SQLite) (m : String)
    (h : db.connectResult = .error m ∨
         (db.connectResult = .ok () ∧ db.masterTables = .error m))
    (hm : m ≠ "") :
    (analyze_database_schema db).ret = .dict [("error", .str m)] ∧
    (∃ s, pyLookup "error" (analyze_database_schema db).ret = some (.str s) ∧ s ≠ "") ∧
    pyLookup "table_count" (analyze_database_schema db).ret = Option.none ∧
    pyLookup "foreign_keys" (analyze_database_schema db).ret = Option.none := by
  have hret : (analyze_database_schema db).ret = .dict [("error", .str m)] := by
    rcases h with h1 | ⟨h1, h2⟩
    · rw [analyze_connect_error db m h1]
    · rw [analyze_master_error db m h1 h2]
  refine ⟨hret, ⟨m, ?_, hm⟩, ?_, ?_⟩ <;> rw [hret] <;>
    simp [pyLookup, List.find?]

/-- C3: any exception raised while connecting, querying the catalog, or
running a pragma is caught and converted to `{'error': str(e)}` — the
function is total on the world (nothing propagates) and attempts each
operation at most once (no retry): `connect` exactly once, the catalog
query at most once, `close` never on the error path, and each table's
pragma at most as often as its name occurs in the catalog. -/
theorem analyze_catches_and_converts (db : SQLite) (m : String)
    (h : db.connectResult = .error m ∨
         (db.connectResult = .ok () ∧ db.masterTables = .error m) ∨
         (∃ ts, db.connectResult = .ok () ∧ db.masterTables = .ok ts ∧
            (fkLoop db ts []).1 = .error m)) :
    (analyze_database_schema db).ret = .dict [("error", .str m)] ∧
    (analyze_database_schema db).events.count .evConnect = 1 ∧
    (analyze_database_schema db).events.count .evQueryMaster ≤ 1 ∧
    (analyze_database_schema db).events.count .evClose = 0 ∧
    ∀ n, (analyze_database_schema db).events.count (.evPragma n) ≤
      (catalogNames db).count n := by
  rcases h with h1 | ⟨h1, h2⟩ | ⟨ts, h1, h2, h3⟩
  · rw [analyze_connect_error db m h1]
    refine ⟨rfl, ?_, ?_, ?_, ?_⟩
    · show List.count Event.evConnect [Event.evConnect] = 1
      decide
    · show List.count Event.evQueryMaster [Event.evConnect] ≤ 1
      decide
    · show List.count Event.evClose [Event.evConnect] = 0
      decide
    · intro n
      have h0 : List.count (Event.evPragma n) [Event.evConnect] = 0 :=
        List.count_eq_zero.mpr (by simp)
      show List.count (Event.evPragma n) [Event.evConnect] ≤ (catalogNames db).count n
      rw [h0]
      exact Nat.zero_le _
  · rw [analyze_master_error db m h1 h2]
    refine ⟨rfl, ?_, ?_, ?_, ?_⟩
    · show List.count Event.evConnect [Event.evConnect, Event.evQueryMaster] = 1
      decide
    · show List.count Event.evQueryMaster [Event.evConnect, Event.evQueryMaster] ≤ 1
      decide
    · show List.count Event.evClose [Event.evConnect, Event.evQueryMaster] = 0
      decide
    · intro n
      have h0 : List.count (Event.evPragma n) [Event.evConnect, Event.evQueryMaster] = 0 :=
        List.count_eq_zero.mpr (by simp)
      show List.count (Event.evPragma n) [Event.evConnect, Event.evQueryMaster] ≤
        (catalogNames db).count n
      rw [h0]
      exact Nat.zero_le _
  · rcases hfk : fkLoop db ts [] with ⟨r1, r2⟩
    rw [hfk] at h3
    simp only at h3
    subst h3
    rw [analyze_loop_error db ts m r2 h1 h2 hfk]
    have hev := fkLoop_events db ts []
    rw [hfk] at hev
    obtain ⟨k, hk⟩ := hev
    simp only at hk
    have hzero : ∀ a : Event, (∀ s, a ≠ Event.evPragma s) → List.count a r2 = 0 := by
      intro a ha
      refine List.count_eq_zero.mpr ?_
      rw [hk]
      intro hmem
      obtain ⟨p, _, hp⟩ := List.mem_map.mp hmem
      exact ha p.1 hp.symm
    refine ⟨rfl, ?_, ?_, ?_, ?_⟩
    · simp [List.count_cons,
        hzero Event.evConnect fun s hs => Event.noConfusion hs]
    · simp [List.count_cons,
        hzero Event.evQueryMaster fun s hs => Event.noConfusion hs]
    · simp [List.count_cons,
        hzero Event.evClose fun s hs => Event.noConfusion hs]
    · intro n
      have hinj : Function.Injective Event.evPragma := by
        intro a b hab
        injection hab
    
      have hhead : List.count (Event.evPragma n)
          (Event.evConnect :: Event.evQueryMaster :: r2) =
          List.count (Event.evPragma n) r2 := by
        simp [List.count_cons]
      rw [hhead, hk]
      have hmm : (List.take k ts).map (fun p => Event.evPragma p.1) =
          ((List.take k ts).map Prod.fst).map Event.evPragma := by
        rw [List.map_map]
        rfl
      rw [hmm, List.count_map_of_injective _ Event.evPragma hinj n,
        List.map_take]
      calc (List.take k (ts.map Prod.fst)).count n
          ≤ (ts.map Prod.fst).count n :=
            (List.take_sublist k _).count_le n
        _ = (catalogNames db).count n := by rw [catalogNames, h2]

/-- C1 witness: the failing-open world, concretely. -/
theorem analyze_error_shape_on_bad_file_witness :
    (analyze_database_schema noFileWorld).ret =
      .dict [("error", .str "unable to open database file")] ∧
    pyLookup "table_count" (analyze_database_schema noFileWorld).ret = Option.none ∧
    pyLookup "foreign_keys" (analyze_database_schema noFileWorld).ret = Option.none := by
  have H := analyze_error_shape_on_bad_file noFileWorld
    "unable to open database file" (Or.inl rfl) (by decide)
  exact ⟨H.1, H.2.2.1, H.2.2.2⟩

/-- C3 witness: the non-database world, concretely. -/
theorem analyze_catches_and_converts_witness :
    (analyze_database_schema textFileWorld).ret =
      .dict [("error", .str "file is not a database")] ∧
    (analyze_database_schema textFileWorld).events.count .evConnect = 1 ∧
    (analyze_database_schema textFileWorld).events.count .evClose = 0 := by
  have H := analyze_catches_and_converts textFileWorld "file is not a database"
    (Or.inr (Or.inl ⟨rfl, rfl⟩))
  exact ⟨H.1, H.2.1, H.2.2.2.1⟩

/-- C5: in every successful result, `found_fk_count` equals the number
of entries of the `foreign_keys` sequence. -/
theorem found_fk_count_eq_length (db : SQLite) (l : List PyVal) (n c : Int)
    (h : (analyze_database_schema db).ret =
      .dict [("foreign_keys", .list l), ("table_count", .int n),
             ("found_fk_count", .int c)]) :
    c = (l.length : Int) := by
  unfold analyze_database_schema at h
  split at h
  · simp at h
  · split at h
    · simp at h
    · split at h
      · simp at h
      · simp only [PyVal.dict.injEq, List.cons.injEq, Prod.mk.injEq,
          PyVal.list.injEq, PyVal.int.injEq, and_true, true_and] at h
        obtain ⟨hl, _, hc⟩ := h
        rw [← hc, ← hl]

/-- C5 witness: the empty database, concretely. -/
theorem found_fk_count_eq_length_witness :
    (0 : Int) = (([] : List PyVal).length : Int) :=
  found_fk_count_eq_length emptyDbWorld [] 0 0 rfl

/-- C6: when the catalog query succeeds and every per-table pragma
succeeds, the result's `foreign_keys` holds exactly one entry per pragma
row — tables in catalog-iteration order, and rows of one table in the
pragma's row order — and the other two fields count tables and entries. -/
theorem foreign_keys_complete_in_order (db : SQLite)
    (ts : List (String × String)) (rows : String → List FKRow)
    (h1 : db.connectResult = .ok ())
    (h2 : db.masterTables = .ok ts)
    (h3 : ∀ p ∈ ts, db.foreignKeyList p.1 = .ok (rows p.1)) :
    (analyze_database_schema db).ret =
      .dict [("foreign_keys",
              .list (ts.flatMap fun p => (rows p.1).map (fkEntry p.1))),
             ("table_count", .int (ts.length : Int)),
             ("found_fk_count",
              .int ((ts.flatMap fun p => (rows p.1).map (fkEntry p.1)).length : Int))] := by
  have hl := fkLoop_ok db rows ts [] h3
  rw [List.nil_append] at hl
  rw [analyze_loop_ok db ts _ _ h1 h2 hl]

/-- C6 witness: the orders/customers database, concretely — exactly one
entry, attributed to `orders`. -/
theorem foreign_keys_complete_in_order_witness :
    (analyze_database_schema ordersWorld).ret =
      .dict [("foreign_keys",
              .list [fkEntry "orders"
                ⟨0, 0, "customers", "customer_id", some "id", "NO ACTION", "NO ACTION", "NONE"⟩]),
             ("table_count", .int 2),
             ("found_fk_count", .int 1)] := by
  have H := foreign_keys_complete_in_order ordersWorld
    [("customers", "CREATE TABLE customers (id INTEGER PRIMARY KEY)"),
     ("orders",
      "CREATE TABLE orders (customer_id INTEGER, FOREIGN KEY(customer_id) REFERENCES customers(id))")]
    ordersRows rfl rfl (by intro p hp; fin_cases hp <;> rfl)
  exact H

/-- C7: a valid database with `N` tables and no declared foreign keys
yields `table_count == N`, `foreign_keys == []` and `found_fk_count == 0`. -/
theorem no_fk_database (db : SQLite) (ts : List (String × String)) (N : Nat)
    (h1 : db.connectResult = .ok ())
    (h2 : db.masterTables = .ok ts)
    (hN : ts.length = N)
    (h3 : ∀ p ∈ ts, db.foreignKeyList p.1 = .ok []) :
    (analyze_database_schema db).ret =
      .dict [("foreign_keys", .list []),
             ("table_count", .int (N : Int)),
             ("found_fk_count", .int 0)] := by
  have hflat : (ts.flatMap fun _ : String × String => ([] : List PyVal)) =
      ([] : List PyVal) := by
    induction ts with
    | nil => rfl
    | cons a t ih => simp [ih]
  have H := foreign_keys_complete_in_order db ts (fun _ => []) h1 h2 h3
  simp only [List.map_nil] at H
  rw [hflat] at H
  simpa [hN] using H

/-- C7 witness: two tables, zero foreign keys, concretely. -/
theorem no_fk_database_witness :
    (analyze_database_schema twoTablesWorld).ret =
      .dict [("foreign_keys", .list []),
             ("table_count", .int 2),
             ("found_fk_count", .int 0)] :=
  no_fk_database twoTablesWorld
    [("alpha", "CREATE TABLE alpha (x INTEGER)"),
     ("beta", "CREATE TABLE beta (y TEXT)")]
    2 rfl rfl rfl (by intro p hp; rfl)

/-- C8: the printed JSON is a function of the database contents alone —
two runs over a world that answers every query identically (the same
unmodified database file) print byte-identical output.  The program
reads no clock, no randomness and no other input. -/
theorem analysis_deterministic (w1 w2 : SQLite)
    (hc : w1.connectResult = w2.connectResult)
    (hm : w1.masterTables = w2.masterTables)
    (hf : ∀ s, w1.foreignKeyList s = w2.foreignKeyList s) :
    mainOutput w1 = mainOutput w2 := by
  have hw : w1 = w2 := by
    cases w1
    cases w2
    simp only [SQLite.mk.injEq]
    exact ⟨hc, hm, funext hf⟩
  rw [hw]

/-- C8 witness: two runs against the empty database. -/
theorem analysis_deterministic_witness :
    mainOutput emptyDbWorld = mainOutput emptyDbWorld :=
  analysis_deterministic emptyDbWorld emptyDbWorld rfl rfl fun _ => rfl

/-- C9: there is a well-formed database — one whose only table has a
name that cannot be pasted verbatim into the unquoted, unparameterized
`PRAGMA foreign_key_list({table_name})` text — on which the function
returns the error shape instead of a success result, leaving the
connection open. -/
theorem pragma_breaks_on_unquoted_name :
    ∃ tbls : List TableDef, wfDatabase tbls ∧
      pyKeys (analyze_database_schema (sqliteWorld tbls)).ret = ["error"] ∧
      (analyze_database_schema (sqliteWorld tbls)).conn = ConnState.stillOpen := by
  refine ⟨[⟨"bad)name", "CREATE TABLE \"bad)name\" (x INTEGER)", []⟩], ⟨?_, ?_⟩, ?_, ?_⟩
  · simp
  · intro t ht
    simp only [List.mem_singleton] at ht
    rw [ht]
    decide
  · decide
  · decide

/-- C10: every entry of a successful `foreign_keys` list carries, in its
`table` field, the name of a table enumerated by the run's catalog
query. -/
theorem fk_entries_from_catalog (db : SQLite)
    (ts : List (String × String))
    (h2 : db.masterTables = .ok ts)
    (fks : List PyVal)
    (hf : pyLookup "foreign_keys" (analyze_database_schema db).ret =
      some (.list fks)) :
    ∀ v ∈ fks, ∀ t : String,
      pyLookup "table" v = some (.str t) → t ∈ ts.map Prod.fst := by
  intro v hv t ht
  rcases hc : db.connectResult with e | u
  · rw [analyze_connect_error db e hc] at hf
    simp [pyLookup, List.find?] at hf
  · cases u
    rcases hfk : fkLoop db ts [] with ⟨r1, r2⟩
    cases r1 with
    | error e =>
      rw [analyze_loop_error db ts e r2 hc h2 hfk] at hf
      simp [pyLookup, List.find?] at hf
    | ok fks' =>
      rw [analyze_loop_ok db ts fks' r2 hc h2 hfk] at hf
      simp [pyLookup, List.find?] at hf
      have hfix : (fkLoop db ts []).1 = .ok fks' := by rw [hfk]
      have hm := fkLoop_mem db ts [] fks' hfix v (by rw [hf]; exact hv)
      rcases hm with habs | ⟨p, hp, fk, hfkv⟩
      · exact absurd habs (List.not_mem_nil v)
      · rw [hfkv] at ht
        simp [fkEntry, pyLookup, List.find?] at ht
        rw [← ht]
        exact List.mem_map.mpr ⟨p, hp, rfl⟩

/-- C10 witness: in the orders/customers database the single entry's
`table` field names `orders`, a table the catalog query enumerated. -/
theorem fk_entries_from_catalog_witness :
    pyLookup "foreign_keys" (analyze_database_schema ordersWorld).ret =
      some (.list [fkEntry "orders"
        ⟨0, 0, "customers", "customer_id", some "id", "NO ACTION", "NO ACTION", "NONE"⟩]) ∧
    "orders" ∈
      ([("customers", "CREATE TABLE customers (id INTEGER PRIMARY KEY)"),
        ("orders",
         "CREATE TABLE orders (customer_id INTEGER, FOREIGN KEY(customer_id) REFERENCES customers(id))")].map
        Prod.fst) := by
  have H := fk_entries_from_catalog ordersWorld
    [("customers", "CREATE TABLE customers (id INTEGER PRIMARY KEY)"),
     ("orders",
      "CREATE TABLE orders (customer_id INTEGER, FOREIGN KEY(customer_id) REFERENCES customers(id))")]
    rfl
    [fkEntry "orders"
      ⟨0, 0, "customers", "customer_id", some "id", "NO ACTION", "NO ACTION", "NONE"⟩]
    (by rfl)
  refine ⟨by rfl, ?_⟩
  exact H (fkEntry "orders"
      ⟨0, 0, "customers", "customer_id", some "id", "NO ACTION", "NO ACTION", "NONE"⟩)
    (by simp) "orders" (by rfl)

/-- C1, counterexample: at a path naming a nonexistent file in an
existing directory the claim fails — `sqlite3.connect` creates the
database instead of raising, and the program returns the success shape
`{'foreign_keys': [], 'table_count': 0, 'found_fk_count': 0}`, which has
a `table_count` key and no `error` key. -/
theorem nonexistent_file_yields_success_shape :
    (analyze_database_schema freshFileWorld).ret =
      .dict [("foreign_keys", .list []), ("table_count", .int 0),
             ("found_fk_count", .int 0)] ∧
    pyLookup "table_count" (analyze_database_schema freshFileWorld).ret =
      some (.int 0) ∧
    pyLookup "error" (analyze_database_schema freshFileWorld).ret = Option.none :=
  ⟨rfl, rfl, rfl⟩

/-- C7, counterexample: `badNameDb` is well-formed, has one table, and
declares no foreign keys at all, yet the program returns the error
shape — no `table_count` key, let alone `table_count == 1` — because the
unquoted pragma text breaks on the table's name. -/
theorem no_fk_database_error_on_bad_name :
    wfDatabase badNameDb ∧
    badNameDb.map TableDef.fks = [[]] ∧
    pyKeys (analyze_database_schema (sqliteWorld badNameDb)).ret = ["error"] ∧
    pyLookup "table_count" (analyze_database_schema (sqliteWorld badNameDb)).ret =
      Option.none := by
  refine ⟨⟨by simp [badNameDb], ?_⟩, rfl, by decide, rfl⟩
  intro t ht
  simp only [badNameDb, List.mem_singleton] at ht
  rw [ht]
  decide
